import Mathlib

/-!
Shallow embedding of the Html5Qrcode scanner (src/html5-qrcode.js) and proofs
about its geometry, validation, device enumeration, scan-loop cancellation and
start-up ordering.  Coordinates and sizes are modelled as rationals; DOM and
camera effects are modelled as explicit state passing and event traces.
-/

/-- Static constant `Html5Qrcode.DEFAULT_WIDTH` (used when the container's
clientWidth is falsy). -/
def DEFAULT_WIDTH : ℚ := 300

/-- Static constant `Html5Qrcode.MIN_QR_BOX_SIZE`. -/
def MIN_QR_BOX_SIZE : ℚ := 50

/-- A rectangle given by origin and extent, the shape of the JS objects
`qrRegion` (from `_getShadedRegionBounds` / `setupUi`) and the layout returned
by `computeCanvasDrawConfig`. -/
structure Bounds where
  x : ℚ
  y : ℚ
  width : ℚ
  height : ℚ
deriving DecidableEq

/-- The set of points covered by a rectangle, half-open on the far edges. -/
def Bounds.toSet (r : Bounds) : Set (ℚ × ℚ) :=
  {p | r.x ≤ p.1 ∧ p.1 < r.x + r.width ∧ r.y ≤ p.2 ∧ p.2 < r.y + r.height}

/-- Embedding of `_getShadedRegionBounds(width, height, qrboxSize)`: throws when
the box exceeds either dimension, otherwise returns the centered square. -/
def getShadedRegionBounds (width height qrboxSize : ℚ) : Except String Bounds :=
  if qrboxSize > width ∨ qrboxSize > height then
    Except.error "config.qrbox should not be greater than the width and height of the HTML element."
  else
    Except.ok ⟨(width - qrboxSize) / 2, (height - qrboxSize) / 2, qrboxSize, qrboxSize⟩

/-- The four shading positions (`SHADED_LEFT/RIGHT/TOP/BOTTOM`). -/
inductive ShadedPosition where
  | left
  | right
  | top
  | bottom
deriving DecidableEq

/-- Embedding of `_createShadedElement(height, qrRegion, shadingPosition)`, as
the rectangle the created absolutely-positioned div occupies inside a parent of
width `containerWidth`.  The JS sets CSS `left`/`top`/`width`/`height` directly
for LEFT, TOP and BOTTOM; for RIGHT it anchors with `right: 0px` and width
`qrRegion.x`, which inside a parent of width `containerWidth` occupies
x from `containerWidth - qrRegion.x` onward.  Note the BOTTOM div's height is
`qrRegion.y` in the source. -/
def createShadedElement (height : ℚ) (qrRegion : Bounds) (pos : ShadedPosition)
    (containerWidth : ℚ) : Bounds :=
  match pos with
  | ShadedPosition.left => ⟨0, 0, qrRegion.x, height⟩
  | ShadedPosition.right => ⟨containerWidth - qrRegion.x, 0, qrRegion.x, height⟩
  | ShadedPosition.top => ⟨qrRegion.x, 0, qrRegion.width, qrRegion.y⟩
  | ShadedPosition.bottom => ⟨qrRegion.x, qrRegion.y + qrRegion.height, qrRegion.width, qrRegion.y⟩

/-- Embedding of `_possiblyInsertShadingElement(element, height, qrRegion)`:
skips shading entirely when the region starts at the origin, otherwise appends
the four shaded divs (left, right, top, bottom) in source order. -/
def possiblyInsertShadingElement (containerWidth height : ℚ) (qrRegion : Bounds) :
    List Bounds :=
  if qrRegion.x = 0 ∧ qrRegion.y = 0 then []
  else
    [createShadedElement height qrRegion ShadedPosition.left containerWidth,
     createShadedElement height qrRegion ShadedPosition.right containerWidth,
     createShadedElement height qrRegion ShadedPosition.top containerWidth,
     createShadedElement height qrRegion ShadedPosition.bottom containerWidth]

/-- Embedding of the `qrRegion` computation of `setupUi(width, height)` in
`start()`: shading applies when `config.qrbox` is defined and fits the height,
in which case `_getShadedRegionBounds` is consulted (it can throw if the box
exceeds the video width at setup time); otherwise the default full region. -/
def setupUiQrRegion (isShadedBoxEnabled : Bool) (qrbox width height : ℚ) :
    Except String Bounds :=
  if isShadedBoxEnabled ∧ qrbox ≤ height then
    getShadedRegionBounds width height qrbox
  else
    Except.ok ⟨0, 0, width, height⟩

/-- The eight positional arguments `foreverScan` passes to
`context.drawImage(videoElement, sx, sy, sWidth, sHeight, dx, dy, dWidth, dHeight)`. -/
structure DrawImageArgs where
  sx : ℚ
  sy : ℚ
  sWidth : ℚ
  sHeight : ℚ
  dx : ℚ
  dy : ℚ
  dWidth : ℚ
  dHeight : ℚ
deriving DecidableEq

/-- Embedding of the draw-rectangle computation inside `foreverScan`:
`widthRatio = videoWidth / clientWidth`, `heightRatio = videoHeight / clientHeight`,
`sWidthOffset = qrRegion.width * widthRatio`, `sHeightOffset = qrRegion.height * heightRatio`,
then `drawImage(video, qrRegion.x, qrRegion.y, sWidthOffset, sHeightOffset, 0, 0,
qrRegion.width, qrRegion.height)`.  The source origin is passed unscaled. -/
def foreverScanDrawArgs (qrRegion : Bounds)
    (videoWidth videoHeight clientWidth clientHeight : ℚ) : DrawImageArgs :=
  let widthRatio := videoWidth / clientWidth
  let heightRatio := videoHeight / clientHeight
  { sx := qrRegion.x
    sy := qrRegion.y
    sWidth := qrRegion.width * widthRatio
    sHeight := qrRegion.height * heightRatio
    dx := 0
    dy := 0
    dWidth := qrRegion.width
    dHeight := qrRegion.height }

/-- A device record as returned by `navigator.mediaDevices.enumerateDevices()`. -/
structure MediaDeviceInfo where
  deviceId : String
  label : String
  kind : String
deriving DecidableEq

/-- The result objects `getCameras` resolves with. -/
structure CameraResult where
  id : String
  label : String
deriving DecidableEq

/-- Embedding of the result-building loop of `getCameras()` (the
`navigator.mediaDevices` branch): walk the enumerated devices in order and push
`id = deviceId`, `label = label` for each device of kind "videoinput". -/
def getCamerasResults : List MediaDeviceInfo → List CameraResult
  | [] => []
  | d :: rest =>
    if d.kind = "videoinput" then
      { id := d.deviceId, label := d.label } :: getCamerasResults rest
    else
      getCamerasResults rest

/-- Modelled from the spec's words for comparison (Device Enumeration: lists
available video input devices, filtering for ones whose kind is "videoinput"):
filter then map, preserving order. -/
def getCamerasSpec (devices : List MediaDeviceInfo) : List CameraResult :=
  (devices.filter (fun d => d.kind = "videoinput")).map
    (fun d => { id := d.deviceId, label := d.label })

/-- The scanner state visible to `scanFile`'s guard section. -/
structure ScannerFileState where
  isScanning : Bool
  lastScanImageFile : Option String
deriving DecidableEq

/-- Embedding of the guard section of `scanFile(imageFile, showImage)`: first
the File instance check, then the ongoing-scan check; only past both does the
function proceed (recording the image file and loading it). -/
def scanFileGuard (s : ScannerFileState) (imageFileValid : Bool) (imageFile : String) :
    Except String (ScannerFileState × String) :=
  if ¬ imageFileValid then
    Except.error "imageFile argument is mandatory and should be instance of File."
  else if s.isScanning then
    Except.error "Close ongoing scan before scanning a file."
  else
    Except.ok ({ s with lastScanImageFile := some imageFile }, imageFile)

/-- The mutable state consulted by the repeating scan loop. -/
structure ScanLoopState where
  shouldScan : Bool
  hasMediaStream : Bool
  timeoutPending : Bool
deriving DecidableEq

/-- The observable actions one invocation of `foreverScan` may perform. -/
inductive ScanAction where
  | drawImage
  | decode
  | scheduleNext
deriving DecidableEq

/-- Embedding of one invocation of `foreverScan`: bail out at once when
`_shouldScan` is false; otherwise copy a frame and decode when a media stream
is attached, and in either case re-arm the timeout. -/
def foreverScanStep (s : ScanLoopState) : ScanLoopState × List ScanAction :=
  if ¬ s.shouldScan then
    (s, [])
  else
    let actions :=
      if s.hasMediaStream then [ScanAction.drawImage, ScanAction.decode] else []
    ({ s with timeoutPending := true }, actions ++ [ScanAction.scheduleNext])

/-- Embedding of the synchronous head of `stop()`: set `_shouldScan = false`
and clear the pending timeout. -/
def stopScan (s : ScanLoopState) : ScanLoopState :=
  { s with shouldScan := false, timeoutPending := false }

/-- Outcome of the synchronous validation section of `start()` before any
camera access. -/
inductive StartOutcome where
  | threw (msg : String)
  | proceedToGetUserMedia
deriving DecidableEq

/-- Embedding of the synchronous guard chain of `start(cameraId, configuration,
qrCodeSuccessCallback, qrCodeErrorCallback)` up to the qrbox validation:
missing cameraId throws, an invalid success callback throws, then with
`width = clientWidth` when truthy else `DEFAULT_WIDTH`, a defined `config.qrbox`
below `MIN_QR_BOX_SIZE` or above `width` throws; otherwise control proceeds to
`getUserMedia`. -/
def startValidate (cameraIdPresent : Bool) (callbackValid : Bool)
    (qrbox : Option ℚ) (clientWidth : ℚ) : StartOutcome :=
  if ¬ cameraIdPresent then
    StartOutcome.threw "cameraId is required"
  else if ¬ callbackValid then
    StartOutcome.threw "qrCodeSuccessCallback is required and should be a function."
  else
    let width := if clientWidth = 0 then DEFAULT_WIDTH else clientWidth
    match qrbox with
    | none => StartOutcome.proceedToGetUserMedia
    | some qrboxSize =>
      if qrboxSize < MIN_QR_BOX_SIZE then
        StartOutcome.threw "minimum size of config.qrbox is 50px."
      else if qrboxSize > width then
        StartOutcome.threw "config.qrbox should not be greater than the width of the HTML element."
      else
        StartOutcome.proceedToGetUserMedia

/-- C1: evaluation of the `foreverScan` draw rectangle at a concrete iteration:
qrRegion = (x 60, y 20, 200 by 200) computed for a 320 by 240 rendered video
with qrbox 200, native resolution 640 by 480, so widthRatio = heightRatio = 2.
The code passes the source origin unscaled (sx = 60, sy = 20) while scaling the
extent (sWidth = sHeight = 400); the claim (and the comment in the code, which
says the scaling factor must be accounted for so that only the relevant
viewfinder area is decoded) requires sx = 60 * 2 = 120 and sy = 20 * 2 = 40.
The destination rectangle does match the claim: (0, 0, 200, 200). -/
theorem foreverScan_drawImage_origin_unscaled :
    (foreverScanDrawArgs ⟨60, 20, 200, 200⟩ 640 480 320 240).sx = 60 ∧
    (foreverScanDrawArgs ⟨60, 20, 200, 200⟩ 640 480 320 240).sy = 20 ∧
    (foreverScanDrawArgs ⟨60, 20, 200, 200⟩ 640 480 320 240).sWidth = 400 ∧
    (foreverScanDrawArgs ⟨60, 20, 200, 200⟩ 640 480 320 240).sHeight = 400 ∧
    (foreverScanDrawArgs ⟨60, 20, 200, 200⟩ 640 480 320 240).sx ≠ 60 * ((640 : ℚ) / 320) ∧
    (foreverScanDrawArgs ⟨60, 20, 200, 200⟩ 640 480 320 240).sy ≠ 20 * ((480 : ℚ) / 240) ∧
    (foreverScanDrawArgs ⟨60, 20, 200, 200⟩ 640 480 320 240).dx = 0 ∧
    (foreverScanDrawArgs ⟨60, 20, 200, 200⟩ 640 480 320 240).dy = 0 ∧
    (foreverScanDrawArgs ⟨60, 20, 200, 200⟩ 640 480 320 240).dWidth = 200 ∧
    (foreverScanDrawArgs ⟨60, 20, 200, 200⟩ 640 480 320 240).dHeight = 200 := by
  refine ⟨rfl, rfl, by norm_num [foreverScanDrawArgs], by norm_num [foreverScanDrawArgs],
    by norm_num [foreverScanDrawArgs], by norm_num [foreverScanDrawArgs],
    rfl, rfl, rfl, rfl⟩

/-- C4: the result list built by `getCameras` contains exactly the enumerated
devices whose kind is "videoinput", in enumeration order, each mapped to an
object with `id = deviceId` and `label = label`; all other kinds are excluded. -/
theorem getCameras_filters_videoinput (devices : List MediaDeviceInfo) :
    getCamerasResults devices = getCamerasSpec devices := by
  induction devices with
  | nil => rfl
  | cons d rest ih =>
    by_cases hd : d.kind = "videoinput" <;>
      simp [getCamerasResults, getCamerasSpec, hd, List.filter] at ih ⊢ <;>
      simpa [getCamerasSpec] using ih

/-- C5: with a valid image file argument, whenever a camera scan is ongoing
(`_isScanning` is true) `scanFile` throws "Close ongoing scan before scanning a
file." before recording or loading the image, so the scanner state is left
unchanged (the error is raised before any state mutation or load action). -/
theorem scanFile_throws_while_scanning (s : ScannerFileState) (imageFile : String)
    (h : s.isScanning = true) :
    scanFileGuard s true imageFile =
      Except.error "Close ongoing scan before scanning a file." := by
  simp [scanFileGuard, h]

/-- Witness for C5 at a concrete scanning state. -/
theorem scanFile_throws_while_scanning_witness :
    ({ isScanning := true, lastScanImageFile := none } : ScannerFileState).isScanning = true ∧
    scanFileGuard { isScanning := true, lastScanImageFile := none } true "qr.png" =
      Except.error "Close ongoing scan before scanning a file." :=
  ⟨rfl, scanFile_throws_while_scanning { isScanning := true, lastScanImageFile := none }
    "qr.png" rfl⟩

/-- C7: after the synchronous head of `stop()` (set `_shouldScan` to false and
clear the pending timeout), any invocation of the scan-loop body returns
immediately: it leaves the state unchanged and performs no action — no frame
copy, no decoder call, and no re-arming of the timer. -/
theorem foreverScan_after_stop_is_noop (s : ScanLoopState) :
    foreverScanStep (stopScan s) = (stopScan s, []) := by
  simp [foreverScanStep, stopScan]

/-- C9: whenever `config.qrbox` is defined and is below `MIN_QR_BOX_SIZE` or
above the effective width (clientWidth, or DEFAULT_WIDTH = 300 when clientWidth
is falsy), the guard chain of `start()` throws: control never reaches
`getUserMedia`, so no camera is acquired and no scanning starts. -/
theorem start_validates_qrbox (cameraIdPresent callbackValid : Bool)
    (qrboxSize clientWidth : ℚ)
    (h : qrboxSize < MIN_QR_BOX_SIZE ∨
      qrboxSize > (if clientWidth = 0 then DEFAULT_WIDTH else clientWidth)) :
    ∃ msg, startValidate cameraIdPresent callbackValid (some qrboxSize) clientWidth =
      StartOutcome.threw msg := by
  unfold startValidate
  by_cases hc : cameraIdPresent
  · by_cases hb : callbackValid
    · simp only [hc, hb]
      by_cases h1 : qrboxSize < MIN_QR_BOX_SIZE
      · exact ⟨"minimum size of config.qrbox is 50px.", by simp [h1]⟩
      · have h2 : qrboxSize > (if clientWidth = 0 then DEFAULT_WIDTH else clientWidth) :=
          h.resolve_left h1
        exact ⟨"config.qrbox should not be greater than the width of the HTML element.",
          by simp [h1, h2]⟩
    · exact ⟨"qrCodeSuccessCallback is required and should be a function.", by simp [hc, hb]⟩
  · exact ⟨"cameraId is required", by simp [hc]⟩

/-- Witness for C9: qrbox 400 against a container of clientWidth 320. -/
theorem start_validates_qrbox_witness :
    ((400 : ℚ) < MIN_QR_BOX_SIZE ∨ (400 : ℚ) > (if (320 : ℚ) = 0 then DEFAULT_WIDTH else 320)) ∧
    ∃ msg, startValidate true true (some 400) 320 = StartOutcome.threw msg :=
  ⟨by norm_num [MIN_QR_BOX_SIZE], start_validates_qrbox true true 400 320
    (by norm_num [MIN_QR_BOX_SIZE])⟩

/-- C10: when `config.qrbox` is defined but exceeds the rendered video height
at setup time, shading is silently skipped and `setupUi` uses the default
region covering the whole rendered video: origin (0, 0) with the full rendered
width and height, with no error raised. -/
theorem setupUi_falls_back_to_full_region (qrbox width height : ℚ)
    (h : qrbox > height) :
    setupUiQrRegion true qrbox width height = Except.ok ⟨0, 0, width, height⟩ := by
  simp [setupUiQrRegion, not_le.mpr h]

/-- Witness for C10: qrbox 280 against a rendered video of height 240. -/
theorem setupUi_falls_back_to_full_region_witness :
    (280 : ℚ) > 240 ∧
    setupUiQrRegion true 280 320 240 = Except.ok ⟨0, 0, 320, 240⟩ :=
  ⟨by norm_num, setupUi_falls_back_to_full_region 280 320 240 (by norm_num)⟩

/-- One downscaling pass of `computeCanvasDrawConfig` (the body of its else
branch): the two sequential `if` statements of the source, with the second one
reading the values updated by the first, unfolded into the four cases. -/
def downscalePass (imageWidth imageHeight containerWidth containerHeight : ℚ) : ℚ × ℚ :=
  if imageWidth > containerWidth then
    if (containerWidth / imageWidth) * imageHeight > containerHeight then
      ((containerHeight / ((containerWidth / imageWidth) * imageHeight)) * containerWidth,
        containerHeight)
    else
      (containerWidth, (containerWidth / imageWidth) * imageHeight)
  else
    if imageHeight > containerHeight then
      ((containerHeight / imageHeight) * imageWidth, containerHeight)
    else
      (imageWidth, imageHeight)

/-- Embedding of the recursive `computeCanvasDrawConfig(imageWidth, imageHeight,
containerWidth, containerHeight)` of `scanFile`, made total with a fuel
parameter (returning `none` on fuel exhaustion, which the termination theorem
shows never happens for positive inputs with fuel 2): when both dimensions fit
the container, center the image unscaled; otherwise run one downscaling pass
and recurse. -/
def computeCanvasDrawConfig :
    Nat → ℚ → ℚ → ℚ → ℚ → Option Bounds
  | 0, _, _, _, _ => none
  | fuel + 1, imageWidth, imageHeight, containerWidth, containerHeight =>
    if imageWidth ≤ containerWidth ∧ imageHeight ≤ containerHeight then
      some ⟨(containerWidth - imageWidth) / 2, (containerHeight - imageHeight) / 2,
        imageWidth, imageHeight⟩
    else
      computeCanvasDrawConfig fuel
        (downscalePass imageWidth imageHeight containerWidth containerHeight).1
        (downscalePass imageWidth imageHeight containerWidth containerHeight).2
        containerWidth containerHeight

/-- Unfolding equation for one step of `computeCanvasDrawConfig`. -/
lemma computeCanvasDrawConfig_succ (fuel : Nat) (iw ih cw ch : ℚ) :
    computeCanvasDrawConfig (fuel + 1) iw ih cw ch =
      if iw ≤ cw ∧ ih ≤ ch then
        some ⟨(cw - iw) / 2, (ch - ih) / 2, iw, ih⟩
      else
        computeCanvasDrawConfig fuel (downscalePass iw ih cw ch).1
          (downscalePass iw ih cw ch).2 cw ch := rfl

/-- For positive inputs that do not already fit, a single downscaling pass
yields positive dimensions that fit the container, never exceed the originals,
and preserve the aspect ratio (stated by cross-multiplication). -/
lemma downscalePass_spec (iw ih cw ch : ℚ) (hiw : 0 < iw) (hih : 0 < ih)
    (hcw : 0 < cw) (hch : 0 < ch) (hnf : ¬(iw ≤ cw ∧ ih ≤ ch)) :
    0 < (downscalePass iw ih cw ch).1 ∧ 0 < (downscalePass iw ih cw ch).2 ∧
    (downscalePass iw ih cw ch).1 ≤ cw ∧ (downscalePass iw ih cw ch).2 ≤ ch ∧
    (downscalePass iw ih cw ch).1 ≤ iw ∧ (downscalePass iw ih cw ch).2 ≤ ih ∧
    (downscalePass iw ih cw ch).1 * ih = iw * (downscalePass iw ih cw ch).2 := by
  rw [downscalePass]
  push_neg at hnf
  split_ifs with hA hB hC
  · -- iw > cw and the once-scaled height still exceeds ch
    have hih1 : 0 < (cw / iw) * ih := by positivity
    have hle1 : (ch / ((cw / iw) * ih)) * cw ≤ cw := by
      rw [div_mul_eq_mul_div, div_le_iff₀ hih1]
      nlinarith
    have hih1le : (cw / iw) * ih ≤ ih := by
      rw [div_mul_eq_mul_div, div_le_iff₀ hiw]
      nlinarith
    refine ⟨by positivity, hch, hle1, le_refl ch, le_trans hle1 (le_of_lt hA),
      le_trans (le_of_lt hB) hih1le, ?_⟩
    have hiw0 : iw ≠ 0 := ne_of_gt hiw
    have hih0 : ih ≠ 0 := ne_of_gt hih
    have hcw0 : cw ≠ 0 := ne_of_gt hcw
    field_simp
    ring
  · -- iw > cw and the once-scaled height fits
    have hih1 : 0 < (cw / iw) * ih := by positivity
    have hih1le : (cw / iw) * ih ≤ ih := by
      rw [div_mul_eq_mul_div, div_le_iff₀ hiw]
      nlinarith
    refine ⟨hcw, hih1, le_refl cw, le_of_not_lt hB, le_of_lt hA, hih1le, ?_⟩
    have hiw0 : iw ≠ 0 := ne_of_gt hiw
    field_simp
  · -- iw fits but ih > ch
    have hle1 : (ch / ih) * iw ≤ iw := by
      rw [div_mul_eq_mul_div, div_le_iff₀ hih]
      nlinarith
    refine ⟨by positivity, hch, le_trans hle1 (le_of_not_lt hA), le_refl ch,
      hle1, le_of_lt hC, ?_⟩
    have hih0 : ih ≠ 0 := ne_of_gt hih
    field_simp
    ring
  · -- both fit: contradicts the hypothesis that the image does not fit
    exact absurd (hnf (le_of_not_lt hA)) (not_lt.mpr (le_of_not_lt hC))

/-- With any nonzero fuel, fitting dimensions hit the base case at once. -/
lemma computeCanvasDrawConfig_of_fits (fuel : Nat) (hf : fuel ≠ 0) (iw ih cw ch : ℚ)
    (h1 : iw ≤ cw) (h2 : ih ≤ ch) :
    computeCanvasDrawConfig fuel iw ih cw ch =
      some ⟨(cw - iw) / 2, (ch - ih) / 2, iw, ih⟩ := by
  cases fuel with
  | zero => exact absurd rfl hf
  | succ n => rw [computeCanvasDrawConfig_succ, if_pos ⟨h1, h2⟩]

/-- C2: for positive image and container dimensions, `computeCanvasDrawConfig`
returns a layout with width at most the container width and height at most the
container height, width at most the image width and height at most the image
height (never scaled up), and the aspect ratio of the image preserved; when
the image already fits, the layout keeps the image size and the offsets center
it in the container. -/
theorem computeCanvasDrawConfig_containment_fit
    (imageWidth imageHeight containerWidth containerHeight : ℚ)
    (hiw : 0 < imageWidth) (hih : 0 < imageHeight)
    (hcw : 0 < containerWidth) (hch : 0 < containerHeight) :
    ∃ cfg, computeCanvasDrawConfig 2 imageWidth imageHeight
        containerWidth containerHeight = some cfg ∧
      cfg.width ≤ containerWidth ∧ cfg.height ≤ containerHeight ∧
      cfg.width ≤ imageWidth ∧ cfg.height ≤ imageHeight ∧
      cfg.width / cfg.height = imageWidth / imageHeight ∧
      (imageWidth ≤ containerWidth → imageHeight ≤ containerHeight →
        cfg.width = imageWidth ∧ cfg.height = imageHeight ∧
        cfg.x = (containerWidth - imageWidth) / 2 ∧
        cfg.y = (containerHeight - imageHeight) / 2) := by
  by_cases hfit : imageWidth ≤ containerWidth ∧ imageHeight ≤ containerHeight
  · rw [computeCanvasDrawConfig_of_fits 2 (by norm_num) _ _ _ _ hfit.1 hfit.2]
    exact ⟨_, rfl, hfit.1, hfit.2, le_refl _, le_refl _, rfl,
      fun _ _ => ⟨rfl, rfl, rfl, rfl⟩⟩
  · obtain ⟨hp1, hp2, hp3, hp4, hp5, hp6, hp7⟩ :=
      downscalePass_spec imageWidth imageHeight containerWidth containerHeight
        hiw hih hcw hch hfit
    rw [show (2 : Nat) = 1 + 1 from rfl, computeCanvasDrawConfig_succ, if_neg hfit,
      computeCanvasDrawConfig_of_fits 1 (by norm_num) _ _ _ _ hp3 hp4]
    exact ⟨_, rfl, hp3, hp4, hp5, hp6,
      (div_eq_div_iff (ne_of_gt hp2) (ne_of_gt hih)).mpr hp7,
      fun h1 h2 => absurd ⟨h1, h2⟩ hfit⟩

/-- C6: for positive image and container dimensions, the recursion of
`computeCanvasDrawConfig` reaches its base case after at most one recursive
call: fuel 2 already produces a result, and giving it any more fuel changes
nothing. -/
theorem computeCanvasDrawConfig_terminates
    (imageWidth imageHeight containerWidth containerHeight : ℚ)
    (hiw : 0 < imageWidth) (hih : 0 < imageHeight)
    (hcw : 0 < containerWidth) (hch : 0 < containerHeight) :
    (computeCanvasDrawConfig 2 imageWidth imageHeight
      containerWidth containerHeight).isSome = true ∧
    ∀ fuel : Nat, computeCanvasDrawConfig (fuel + 2) imageWidth imageHeight
      containerWidth containerHeight =
      computeCanvasDrawConfig 2 imageWidth imageHeight
        containerWidth containerHeight := by
  by_cases hfit : imageWidth ≤ containerWidth ∧ imageHeight ≤ containerHeight
  · constructor
    · rw [computeCanvasDrawConfig_of_fits 2 (by norm_num) _ _ _ _ hfit.1 hfit.2]
      rfl
    · intro fuel
      rw [computeCanvasDrawConfig_of_fits (fuel + 2) (by simp) _ _ _ _ hfit.1 hfit.2,
        computeCanvasDrawConfig_of_fits 2 (by norm_num) _ _ _ _ hfit.1 hfit.2]
  · obtain ⟨hp1, hp2, hp3, hp4, hp5, hp6, hp7⟩ :=
      downscalePass_spec imageWidth imageHeight containerWidth containerHeight
        hiw hih hcw hch hfit
    constructor
    · rw [show (2 : Nat) = 1 + 1 from rfl, computeCanvasDrawConfig_succ, if_neg hfit,
        computeCanvasDrawConfig_of_fits 1 (by norm_num) _ _ _ _ hp3 hp4]
      rfl
    · intro fuel
      rw [show fuel + 2 = (fuel + 1) + 1 from rfl, computeCanvasDrawConfig_succ, if_neg hfit,
        computeCanvasDrawConfig_of_fits (fuel + 1) (by simp) _ _ _ _ hp3 hp4,
        show (2 : Nat) = 1 + 1 from rfl, computeCanvasDrawConfig_succ, if_neg hfit,
        computeCanvasDrawConfig_of_fits 1 (by norm_num) _ _ _ _ hp3 hp4]

/-- Witness for C2: a 600 by 400 image in a 300 by 150 container. -/
theorem computeCanvasDrawConfig_containment_fit_witness :
    (0 : ℚ) < 600 ∧ (0 : ℚ) < 400 ∧ (0 : ℚ) < 300 ∧ (0 : ℚ) < 150 ∧
    ∃ cfg, computeCanvasDrawConfig 2 600 400 300 150 = some cfg ∧
      cfg.width ≤ 300 ∧ cfg.height ≤ 150 ∧
      cfg.width ≤ 600 ∧ cfg.height ≤ 400 ∧
      cfg.width / cfg.height = (600 : ℚ) / 400 ∧
      ((600 : ℚ) ≤ 300 → (400 : ℚ) ≤ 150 →
        cfg.width = 600 ∧ cfg.height = 400 ∧
        cfg.x = ((300 : ℚ) - 600) / 2 ∧ cfg.y = ((150 : ℚ) - 400) / 2) :=
  ⟨by norm_num, by norm_num, by norm_num, by norm_num,
    computeCanvasDrawConfig_containment_fit 600 400 300 150
      (by norm_num) (by norm_num) (by norm_num) (by norm_num)⟩

/-- Witness for C6: a 500 by 200 image in a 250 by 250 container. -/
theorem computeCanvasDrawConfig_terminates_witness :
    (0 : ℚ) < 500 ∧ (0 : ℚ) < 200 ∧ (0 : ℚ) < 250 ∧ (0 : ℚ) < 250 ∧
    ((computeCanvasDrawConfig 2 500 200 250 250).isSome = true ∧
      ∀ fuel : Nat, computeCanvasDrawConfig (fuel + 2) 500 200 250 250 =
        computeCanvasDrawConfig 2 500 200 250 250) :=
  ⟨by norm_num, by norm_num, by norm_num, by norm_num,
    computeCanvasDrawConfig_terminates 500 200 250 250
      (by norm_num) (by norm_num) (by norm_num) (by norm_num)⟩

/-- The union of the point sets of the four shaded divs created by
`_possiblyInsertShadingElement` via `_createShadedElement` (left, right, top,
bottom) for a region inside a container of the given width. -/
def shadedRectsUnion (containerWidth height : ℚ) (qrRegion : Bounds) : Set (ℚ × ℚ) :=
  Bounds.toSet (createShadedElement height qrRegion ShadedPosition.left containerWidth) ∪
  Bounds.toSet (createShadedElement height qrRegion ShadedPosition.right containerWidth) ∪
  Bounds.toSet (createShadedElement height qrRegion ShadedPosition.top containerWidth) ∪
  Bounds.toSet (createShadedElement height qrRegion ShadedPosition.bottom containerWidth)

/-- C3: when shading applies (`config.qrbox` defined with
`MIN_QR_BOX_SIZE ≤ qrbox ≤ width` and `qrbox ≤ height`), the scanned region is
the square of side qrbox centered in the width by height viewfinder, each of
the four shading rectangles is disjoint from that region, and together they
cover exactly the part of the viewfinder outside the region. -/
theorem shadedRegion_geometry (width height qrboxSize : ℚ)
    (hmin : MIN_QR_BOX_SIZE ≤ qrboxSize) (hw : qrboxSize ≤ width)
    (hh : qrboxSize ≤ height) :
    getShadedRegionBounds width height qrboxSize =
      Except.ok ⟨(width - qrboxSize) / 2, (height - qrboxSize) / 2, qrboxSize, qrboxSize⟩ ∧
    (∀ pos : ShadedPosition,
      Bounds.toSet (createShadedElement height
          ⟨(width - qrboxSize) / 2, (height - qrboxSize) / 2, qrboxSize, qrboxSize⟩
          pos width) ∩
        Bounds.toSet ⟨(width - qrboxSize) / 2, (height - qrboxSize) / 2, qrboxSize, qrboxSize⟩
        = ∅) ∧
    shadedRectsUnion width height
        ⟨(width - qrboxSize) / 2, (height - qrboxSize) / 2, qrboxSize, qrboxSize⟩ =
      Bounds.toSet ⟨0, 0, width, height⟩ \
        Bounds.toSet ⟨(width - qrboxSize) / 2, (height - qrboxSize) / 2, qrboxSize, qrboxSize⟩ := by
  have hq : (0 : ℚ) < qrboxSize := by
    have : (0 : ℚ) < MIN_QR_BOX_SIZE := by norm_num [MIN_QR_BOX_SIZE]
    linarith
  refine ⟨?_, ?_, ?_⟩
  · rw [getShadedRegionBounds, if_neg (by push_neg; exact ⟨hw, hh⟩)]
  · intro pos
    apply Set.eq_empty_iff_forall_not_mem.mpr
    rintro ⟨px, py⟩ ⟨hs, hr⟩
    cases pos <;>
      simp only [Bounds.toSet, createShadedElement, Set.mem_setOf_eq] at hs hr <;>
      obtain ⟨hs1, hs2, hs3, hs4⟩ := hs <;>
      obtain ⟨hr1, hr2, hr3, hr4⟩ := hr <;>
      linarith
  · ext ⟨px, py⟩
    simp only [shadedRectsUnion, Bounds.toSet, createShadedElement, Set.mem_union,
      Set.mem_diff, Set.mem_setOf_eq]
    constructor
    · rintro (((⟨a1, a2, a3, a4⟩ | ⟨a1, a2, a3, a4⟩) | ⟨a1, a2, a3, a4⟩) |
        ⟨a1, a2, a3, a4⟩)
      · exact ⟨⟨a1, by linarith, a3, by linarith⟩,
          fun hreg => by obtain ⟨r1, r2, r3, r4⟩ := hreg; linarith⟩
      · exact ⟨⟨by linarith, by linarith, a3, by linarith⟩,
          fun hreg => by obtain ⟨r1, r2, r3, r4⟩ := hreg; linarith⟩
      · exact ⟨⟨by linarith, by linarith, a3, by linarith⟩,
          fun hreg => by obtain ⟨r1, r2, r3, r4⟩ := hreg; linarith⟩
      · exact ⟨⟨by linarith, by linarith, by linarith, by linarith⟩,
          fun hreg => by obtain ⟨r1, r2, r3, r4⟩ := hreg; linarith⟩
    · rintro ⟨⟨v1, v2, v3, v4⟩, hreg⟩
      rcases lt_or_le px ((width - qrboxSize) / 2) with hx1 | hx1
      · exact Or.inl (Or.inl (Or.inl ⟨v1, by linarith, v3, by linarith⟩))
      · rcases le_or_lt ((width - qrboxSize) / 2 + qrboxSize) px with hx2 | hx2
        · exact Or.inl (Or.inl (Or.inr ⟨by linarith, by linarith, v3, by linarith⟩))
        · rcases lt_or_le py ((height - qrboxSize) / 2) with hy1 | hy1
          · exact Or.inl (Or.inr ⟨hx1, by linarith, v3, by linarith⟩)
          · rcases le_or_lt ((height - qrboxSize) / 2 + qrboxSize) py with hy2 | hy2
            · exact Or.inr ⟨hx1, by linarith, by linarith, by linarith⟩
            · exact absurd ⟨hx1, by linarith, hy1, by linarith⟩ hreg

/-- Witness for C3: qrbox 100 in a 200 by 150 viewfinder. -/
theorem shadedRegion_geometry_witness :
    MIN_QR_BOX_SIZE ≤ (100 : ℚ) ∧ (100 : ℚ) ≤ 200 ∧ (100 : ℚ) ≤ 150 ∧
    (getShadedRegionBounds 200 150 100 =
      Except.ok ⟨((200 : ℚ) - 100) / 2, ((150 : ℚ) - 100) / 2, 100, 100⟩ ∧
    (∀ pos : ShadedPosition,
      Bounds.toSet (createShadedElement 150
          ⟨((200 : ℚ) - 100) / 2, ((150 : ℚ) - 100) / 2, 100, 100⟩ pos 200) ∩
        Bounds.toSet ⟨((200 : ℚ) - 100) / 2, ((150 : ℚ) - 100) / 2, 100, 100⟩ = ∅) ∧
    shadedRectsUnion 200 150 ⟨((200 : ℚ) - 100) / 2, ((150 : ℚ) - 100) / 2, 100, 100⟩ =
      Bounds.toSet ⟨0, 0, 200, 150⟩ \
        Bounds.toSet ⟨((200 : ℚ) - 100) / 2, ((150 : ℚ) - 100) / 2, 100, 100⟩) :=
  ⟨by norm_num [MIN_QR_BOX_SIZE], by norm_num, by norm_num,
    shadedRegion_geometry 200 150 100 (by norm_num [MIN_QR_BOX_SIZE])
      (by norm_num) (by norm_num)⟩

/-- The control phases a successful `start()` call goes through: the camera
stream arrives, the video element's playing event fires, the `onplaying`
handler runs `setupUi` then `foreverScan` then resolves the inner Promise, and
the outer `.then` sets `_isScanning` and resolves the Promise `start` returned. -/
inductive StartPhase where
  | awaitingMedia
  | awaitingPlaying
  | playingFired
  | uiSetup
  | scanLoopStarted
  | innerResolved
  | started
deriving DecidableEq

/-- The observable events of the `start()` wiring. -/
inductive StartEvent where
  | mediaStreamReceived
  | playingEvent
  | setupUiEvent
  | firstScanInvocation
  | innerPromiseResolve
  | outerResolve
deriving DecidableEq

/-- State carried across the `start()` wiring: the phase plus the
`_isScanning` flag. -/
structure StartState where
  phase : StartPhase
  isScanning : Bool
deriving DecidableEq

/-- One step of the `start()` wiring, from the callback structure of the
source: `getUserMedia`'s success callback hands the stream to
`onMediaStreamReceived`; the `onplaying` listener fires only after playback
begins and its body runs `setupUi(videoWidth, videoHeight)`, then
`foreverScan()`, then `resolve()`; the outer `.then` sets `_isScanning = true`
and resolves.  Any other event in any other phase is impossible. -/
def startStep (s : StartState) (e : StartEvent) : Option StartState :=
  match s.phase, e with
  | StartPhase.awaitingMedia, StartEvent.mediaStreamReceived =>
    some { s with phase := StartPhase.awaitingPlaying }
  | StartPhase.awaitingPlaying, StartEvent.playingEvent =>
    some { s with phase := StartPhase.playingFired }
  | StartPhase.playingFired, StartEvent.setupUiEvent =>
    some { s with phase := StartPhase.uiSetup }
  | StartPhase.uiSetup, StartEvent.firstScanInvocation =>
    some { s with phase := StartPhase.scanLoopStarted }
  | StartPhase.scanLoopStarted, StartEvent.innerPromiseResolve =>
    some { s with phase := StartPhase.innerResolved }
  | StartPhase.innerResolved, StartEvent.outerResolve =>
    some { phase := StartPhase.started, isScanning := true }
  | _, _ => none

/-- Whether an event trace is a complete successful run of `start()` from the
given state (ending with the returned Promise resolved). -/
def startAccepts : StartState → List StartEvent → Bool
  | s, [] => decide (s.phase = StartPhase.started)
  | s, e :: rest =>
    match startStep s e with
    | some s2 => startAccepts s2 rest
    | none => false

/-- The states reached after each successive event of a run. -/
def startStatesAlong (s : StartState) : List StartEvent → List StartState
  | [] => []
  | e :: rest =>
    match startStep s e with
    | some s2 => s2 :: startStatesAlong s2 rest
    | none => []

/-- The canonical remaining event list from each phase. -/
def eventsFrom : StartPhase → List StartEvent
  | StartPhase.awaitingMedia =>
    [StartEvent.mediaStreamReceived, StartEvent.playingEvent, StartEvent.setupUiEvent,
      StartEvent.firstScanInvocation, StartEvent.innerPromiseResolve, StartEvent.outerResolve]
  | StartPhase.awaitingPlaying =>
    [StartEvent.playingEvent, StartEvent.setupUiEvent, StartEvent.firstScanInvocation,
      StartEvent.innerPromiseResolve, StartEvent.outerResolve]
  | StartPhase.playingFired =>
    [StartEvent.setupUiEvent, StartEvent.firstScanInvocation,
      StartEvent.innerPromiseResolve, StartEvent.outerResolve]
  | StartPhase.uiSetup =>
    [StartEvent.firstScanInvocation, StartEvent.innerPromiseResolve, StartEvent.outerResolve]
  | StartPhase.scanLoopStarted =>
    [StartEvent.innerPromiseResolve, StartEvent.outerResolve]
  | StartPhase.innerResolved => [StartEvent.outerResolve]
  | StartPhase.started => []

/-- An accepted run is forced, event by event, to be the canonical one. -/
lemma startAccepts_eq_eventsFrom (tr : List StartEvent) :
    ∀ s : StartState, startAccepts s tr = true → tr = eventsFrom s.phase := by
  induction tr with
  | nil =>
    intro s h
    simp only [startAccepts] at h
    rw [of_decide_eq_true h]
    rfl
  | cons e rest ih =>
    rintro ⟨phase, scanning⟩ h
    cases phase <;> cases e <;>
      simp only [startAccepts, startStep, eventsFrom] at h ⊢ <;>
      first
        | exact absurd h (by decide)
        | simpa [eventsFrom] using ih _ h

/-- C8: in every complete successful run of `start()`, the viewfinder geometry
(`setupUi`) is computed and the first scan iteration is invoked only after the
playing event has fired, and the Promise returned by `start()` resolves — with
`_isScanning` becoming true only at that final step — only after geometry
setup and the start of the scan loop: the run is exactly the canonical event
sequence, the event indices are strictly ordered, and `_isScanning` is false
after every step but the last. -/
theorem start_ordering (tr : List StartEvent)
    (h : startAccepts { phase := StartPhase.awaitingMedia, isScanning := false } tr = true) :
    tr = [StartEvent.mediaStreamReceived, StartEvent.playingEvent, StartEvent.setupUiEvent,
      StartEvent.firstScanInvocation, StartEvent.innerPromiseResolve,
      StartEvent.outerResolve] ∧
    tr.indexOf StartEvent.playingEvent < tr.indexOf StartEvent.setupUiEvent ∧
    tr.indexOf StartEvent.setupUiEvent < tr.indexOf StartEvent.firstScanInvocation ∧
    tr.indexOf StartEvent.firstScanInvocation < tr.indexOf StartEvent.outerResolve ∧
    (startStatesAlong { phase := StartPhase.awaitingMedia, isScanning := false } tr).map
        (fun s => s.isScanning) =
      [false, false, false, false, false, true] := by
  have htr := startAccepts_eq_eventsFrom tr _ h
  subst htr
  exact ⟨rfl, by decide, by decide, by decide, by decide⟩

/-- Witness for C8: the canonical run itself is accepted and ordered. -/
theorem start_ordering_witness :
    startAccepts { phase := StartPhase.awaitingMedia, isScanning := false }
      [StartEvent.mediaStreamReceived, StartEvent.playingEvent, StartEvent.setupUiEvent,
        StartEvent.firstScanInvocation, StartEvent.innerPromiseResolve,
        StartEvent.outerResolve] = true ∧
    ([StartEvent.mediaStreamReceived, StartEvent.playingEvent, StartEvent.setupUiEvent,
        StartEvent.firstScanInvocation, StartEvent.innerPromiseResolve,
        StartEvent.outerResolve] =
      [StartEvent.mediaStreamReceived, StartEvent.playingEvent, StartEvent.setupUiEvent,
        StartEvent.firstScanInvocation, StartEvent.innerPromiseResolve,
        StartEvent.outerResolve] ∧
    [StartEvent.mediaStreamReceived, StartEvent.playingEvent, StartEvent.setupUiEvent,
        StartEvent.firstScanInvocation, StartEvent.innerPromiseResolve,
        StartEvent.outerResolve].indexOf StartEvent.playingEvent <
      [StartEvent.mediaStreamReceived, StartEvent.playingEvent, StartEvent.setupUiEvent,
        StartEvent.firstScanInvocation, StartEvent.innerPromiseResolve,
        StartEvent.outerResolve].indexOf StartEvent.setupUiEvent ∧
    [StartEvent.mediaStreamReceived, StartEvent.playingEvent, StartEvent.setupUiEvent,
        StartEvent.firstScanInvocation, StartEvent.innerPromiseResolve,
        StartEvent.outerResolve].indexOf StartEvent.setupUiEvent <
      [StartEvent.mediaStreamReceived, StartEvent.playingEvent, StartEvent.setupUiEvent,
        StartEvent.firstScanInvocation, StartEvent.innerPromiseResolve,
        StartEvent.outerResolve].indexOf StartEvent.firstScanInvocation ∧
    [StartEvent.mediaStreamReceived, StartEvent.playingEvent, StartEvent.setupUiEvent,
        StartEvent.firstScanInvocation, StartEvent.innerPromiseResolve,
        StartEvent.outerResolve].indexOf StartEvent.firstScanInvocation <
      [StartEvent.mediaStreamReceived, StartEvent.playingEvent, StartEvent.setupUiEvent,
        StartEvent.firstScanInvocation, StartEvent.innerPromiseResolve,
        StartEvent.outerResolve].indexOf StartEvent.outerResolve ∧
    (startStatesAlong { phase := StartPhase.awaitingMedia, isScanning := false }
        [StartEvent.mediaStreamReceived, StartEvent.playingEvent, StartEvent.setupUiEvent,
          StartEvent.firstScanInvocation, StartEvent.innerPromiseResolve,
          StartEvent.outerResolve]).map (fun s => s.isScanning) =
      [false, false, false, false, false, true]) :=
  ⟨by decide, start_ordering
    [StartEvent.mediaStreamReceived, StartEvent.playingEvent, StartEvent.setupUiEvent,
      StartEvent.firstScanInvocation, StartEvent.innerPromiseResolve,
      StartEvent.outerResolve] (by decide)⟩
